import Mathlib

/-!
Verification of the Local SEO plan generator (`src/main.py`).

The program is a single-file Streamlit app.  We shallowly embed the pure
logic of its functions over a model of Python/JSON values:

* `cached_serp` / `get_serp_results` — search-API result filtering
  (`src/main.py` lines 38-56, 81-82), parameterised by the HTTP response;
* `extract_text` — nested-field extraction from the content API
  (lines 84-99), parameterised by the parsed response;
* `generate_posts` — JSON parse with bare-`except` regex-split fallback
  (lines 121-156), parameterised by the model output string;
* the orchestrator's topic filtering (line 186) and row loop
  (lines 205-212).

Python exceptions are modelled with `Except PyErr`; Python `dict.get`,
subscripting, `in`, iteration, truthiness and `str.strip` are modelled by
the `py*` helpers below, each faithful to CPython semantics on the value
shapes that can occur.
-/

/-- A parsed JSON value (the result of `response.json()` / `json.loads`).
Numbers are modelled as integers; the APIs and test inputs involved use
integer status codes only. -/
inductive Json where
  | null : Json
  | bool (b : Bool) : Json
  | num (n : Int) : Json
  | str (s : String) : Json
  | arr (xs : List Json) : Json
  | obj (kvs : List (String × Json)) : Json

/-- The Python exceptions the embedded code can raise. -/
inductive PyErr where
  | attributeError : PyErr
  | keyError : PyErr
  | indexError : PyErr
  | typeError : PyErr
  | jsonDecodeError : PyErr
deriving DecidableEq, Repr

/-- Python dict lookup on an association list; a later binding for the same
key shadows an earlier one, as in a Python `dict`. -/
def jlookup (kvs : List (String × Json)) (k : String) : Option Json :=
  kvs.foldl (fun acc p => if p.1 = k then some p.2 else acc) none

/-- Python truthiness (`bool(x)`) for the modelled values. -/
def pyTruthy : Json → Bool
  | Json.null => false
  | Json.bool b => b
  | Json.num n => n != 0
  | Json.str s => s != ""
  | Json.arr xs => !xs.isEmpty
  | Json.obj kvs => !kvs.isEmpty

/-- `x.get(k)`: `None`-defaulted dict lookup; raises `AttributeError` when
`x` is not a dict. -/
def pyDictGet (j : Json) (k : String) : Except PyErr (Option Json) :=
  match j with
  | Json.obj kvs => Except.ok (jlookup kvs k)
  | _ => Except.error PyErr.attributeError

/-- `x.get(k, d)`: dict lookup with an explicit default; raises
`AttributeError` when `x` is not a dict. -/
def pyDictGetD (j : Json) (k : String) (d : Json) : Except PyErr Json :=
  match j with
  | Json.obj kvs => Except.ok ((jlookup kvs k).getD d)
  | _ => Except.error PyErr.attributeError

/-- `x[i]` for a non-negative integer index `i`: list/str indexing
(`IndexError` out of range), `KeyError` on a string-keyed dict, and
`TypeError` otherwise. -/
def pySubscriptNat (j : Json) (i : Nat) : Except PyErr Json :=
  match j with
  | Json.arr xs =>
      match xs.get? i with
      | some x => Except.ok x
      | none => Except.error PyErr.indexError
  | Json.str s =>
      match s.data.get? i with
      | some c => Except.ok (Json.str (String.mk [c]))
      | none => Except.error PyErr.indexError
  | Json.obj _ => Except.error PyErr.keyError
  | _ => Except.error PyErr.typeError

/-- `x[k]` for a string key `k`: dict lookup (`KeyError` when absent);
`TypeError` on every non-dict value. -/
def pySubscriptStr (j : Json) (k : String) : Except PyErr Json :=
  match j with
  | Json.obj kvs =>
      match jlookup kvs k with
      | some v => Except.ok v
      | none => Except.error PyErr.keyError
  | _ => Except.error PyErr.typeError

/-- `x == s` where `s` is a Python `str`: true exactly when `x` is the same
string. -/
def jeqStr (j : Json) (s : String) : Bool :=
  match j with
  | Json.str t => t == s
  | _ => false

/-- `x == 20000` applied to the result of a `.get` (an optional value):
true exactly when the value is the integer `20000`. -/
def optEq20000 : Option Json → Bool
  | some (Json.num n) => n == 20000
  | _ => false

/-- `needle in hay` for Python strings: substring containment. -/
def strContains (hay needle : String) : Bool :=
  (List.range (hay.data.length + 1)).any
    (fun i => needle.data.isPrefixOf (hay.data.drop i))

/-- `k in x` for a string `k`: key membership on dicts, substring test on
strings, element equality on lists, `TypeError` otherwise. -/
def pyContains (k : String) (j : Json) : Except PyErr Bool :=
  match j with
  | Json.obj kvs => Except.ok (jlookup kvs k).isSome
  | Json.str s => Except.ok (strContains s k)
  | Json.arr xs => Except.ok (xs.any (fun x => jeqStr x k))
  | _ => Except.error PyErr.typeError

/-- `for y in x`: iteration yields list elements, dict keys, or the
characters of a string (as one-character strings); `TypeError` otherwise. -/
def pyIter (j : Json) : Except PyErr (List Json) :=
  match j with
  | Json.arr xs => Except.ok xs
  | Json.obj kvs => Except.ok (kvs.map (fun p => Json.str p.1))
  | Json.str s => Except.ok (s.data.map (fun c => Json.str (String.mk [c])))
  | _ => Except.error PyErr.typeError

/-- The HTTP response of one outbound `requests.post` call: the status code
and, when the body is valid JSON, its parse (`none` models a body on which
`response.json()` would raise). -/
structure HttpResponse where
  status : Nat
  jsonBody : Option Json

/-- The list comprehension `[r for r in results if r["type"] == "organic"]`
(`src/main.py` line 55): keeps the items whose `"type"` field equals
`"organic"`, propagating the exception of any failing subscript. -/
def filterOrganic : List Json → Except PyErr (List Json)
  | [] => Except.ok []
  | r :: rs =>
    match pySubscriptStr r "type" with
    | Except.error e => Except.error e
    | Except.ok t =>
      match filterOrganic rs with
      | Except.error e => Except.error e
      | Except.ok rest =>
          Except.ok (if jeqStr t "organic" then r :: rest else rest)

/-- `cached_serp` (`src/main.py` lines 38-56), parameterised by the search
API's HTTP response.  On HTTP 200 and API status 20000 it indexes
`data["tasks"][0]["result"][0]["items"]` without guards, filters to organic
items and truncates to `depth`; otherwise it returns `[]`. -/
def cached_serp (resp : HttpResponse) (depth : Nat) : Except PyErr (List Json) :=
  if resp.status = 200 then
    match resp.jsonBody with
    | none => Except.error PyErr.jsonDecodeError
    | some data =>
      match pyDictGet data "status_code" with
      | Except.error e => Except.error e
      | Except.ok sc =>
        if optEq20000 sc then
          match pySubscriptStr data "tasks" with
          | Except.error e => Except.error e
          | Except.ok tasks =>
            match pySubscriptNat tasks 0 with
            | Except.error e => Except.error e
            | Except.ok task0 =>
              match pySubscriptStr task0 "result" with
              | Except.error e => Except.error e
              | Except.ok result =>
                match pySubscriptNat result 0 with
                | Except.error e => Except.error e
                | Except.ok res0 =>
                  match pySubscriptStr res0 "items" with
                  | Except.error e => Except.error e
                  | Except.ok items =>
                    match pyIter items with
                    | Except.error e => Except.error e
                    | Except.ok results =>
                      match filterOrganic results with
                      | Except.error e => Except.error e
                      | Except.ok organic => Except.ok (organic.take depth)
        else Except.ok []
  else Except.ok []

/-- `get_serp_results` (`src/main.py` lines 81-82): `cached_serp` at
`depth=5`. -/
def get_serp_results (resp : HttpResponse) : Except PyErr (List Json) :=
  cached_serp resp 5

/-- The ASCII whitespace characters of Python's `str.strip` and of the
regex class `\s`: space, tab, newline, carriage return, vertical tab,
form feed. -/
def isPySpace (c : Char) : Bool :=
  c == ' ' || c == '\t' || c == '\n' || c == '\r' ||
  c == Char.ofNat 11 || c == Char.ofNat 12

/-- The character list of `s.strip()`: leading and trailing whitespace
removed. -/
def trimChars (l : List Char) : List Char :=
  ((l.dropWhile isPySpace).reverse.dropWhile isPySpace).reverse

/-- Python `s.strip()`. -/
def pyStrip (s : String) : String := String.mk (trimChars s.data)

/-- Python `s[:n]`: the first `n` characters of `s`. -/
def pySliceTo (s : String) (n : Nat) : String := String.mk (s.data.take n)

/-- `p.strip()` on an arbitrary value: defined on strings, raises
`AttributeError` otherwise. -/
def pyStripVal (p : Json) : Except PyErr String :=
  match p with
  | Json.str s => Except.ok (pyStrip s)
  | _ => Except.error PyErr.attributeError

/-- The inner loop of `extract_text` (`src/main.py` lines 95-97): for each
`c` with `isinstance(c, dict)` and a truthy `"text"` field, append
`c["text"] + " "` to the accumulated text (`TypeError` when that field is
truthy but not a string, as `str + non-str` raises). -/
def accumContent : List Json → List Char → Except PyErr (List Char)
  | [], text => Except.ok text
  | c :: rest, text =>
    match c with
    | Json.obj kvs =>
      match jlookup kvs "text" with
      | some v =>
        if pyTruthy v then
          match v with
          | Json.str s => accumContent rest (text ++ s.data ++ [' '])
          | _ => Except.error PyErr.typeError
        else accumContent rest text
      | none => accumContent rest text
    | _ => accumContent rest text

/-- The outer loop of `extract_text` (`src/main.py` lines 94-97): for each
topic in `page.get("main_topic", [])`, iterate its
`topic.get("primary_content", [])` through `accumContent`. -/
def accumTopics : List Json → List Char → Except PyErr (List Char)
  | [], text => Except.ok text
  | t :: rest, text =>
    match pyDictGetD t "primary_content" (Json.arr []) with
    | Except.error e => Except.error e
    | Except.ok pc =>
      match pyIter pc with
      | Except.error e => Except.error e
      | Except.ok cs =>
        match accumContent cs text with
        | Except.error e => Except.error e
        | Except.ok text2 => accumTopics rest text2

/-- `extract_text` (`src/main.py` lines 84-99), parameterised by the value
returned by `cached_content_full` (`none` models the `None` returned on a
non-200 content-API response).  Mirrors the guards of the source: falsy or
wrong-status data, falsy `result`, missing `"items"`, falsy `items` and
missing `"page_content"` each yield `""`; the concatenated primary-content
text is truncated to 4000 characters. -/
def extract_text (data : Option Json) : Except PyErr String :=
  match data with
  | none => Except.ok ""
  | some d =>
    if pyTruthy d then
      match pyDictGet d "status_code" with
      | Except.error e => Except.error e
      | Except.ok sc =>
        if optEq20000 sc then
          match pyDictGetD d "result" (Json.arr []) with
          | Except.error e => Except.error e
          | Except.ok result =>
            if pyTruthy result then
              match pySubscriptNat result 0 with
              | Except.error e => Except.error e
              | Except.ok r0 =>
                match pyContains "items" r0 with
                | Except.error e => Except.error e
                | Except.ok hasItems =>
                  if hasItems then
                    match pySubscriptStr r0 "items" with
                    | Except.error e => Except.error e
                    | Except.ok items =>
                      if pyTruthy items then
                        match pySubscriptNat items 0 with
                        | Except.error e => Except.error e
                        | Except.ok i0 =>
                          match pyContains "page_content" i0 with
                          | Except.error e => Except.error e
                          | Except.ok hasPage =>
                            if hasPage then
                              match pySubscriptStr i0 "page_content" with
                              | Except.error e => Except.error e
                              | Except.ok page =>
                                match pyDictGetD page "main_topic" (Json.arr []) with
                                | Except.error e => Except.error e
                                | Except.ok mt =>
                                  match pyIter mt with
                                  | Except.error e => Except.error e
                                  | Except.ok ts =>
                                    match accumTopics ts [] with
                                    | Except.error e => Except.error e
                                    | Except.ok text =>
                                        Except.ok (String.mk (text.take 4000))
                            else Except.ok ""
                      else Except.ok ""
                  else Except.ok ""
            else Except.ok ""
        else Except.ok ""
    else Except.ok ""

/-- JSON insignificant whitespace skipping. -/
def skipWs : List Char → List Char
  | [] => []
  | c :: rest =>
      if c = ' ' || c = '\t' || c = '\n' || c = '\r' then skipWs rest
      else c :: rest

/-- Parse the body of a JSON string literal after its opening quote,
returning the string and the remainder after the closing quote.  Handles
the single-character escapes; `\uXXXX` escapes are outside the model. -/
def parseStringBody : List Char → Option (String × List Char)
  | [] => none
  | c :: rest =>
    if c = '"' then some ("", rest)
    else if c = '\\' then
      match rest with
      | [] => none
      | e :: rest2 =>
        let esc : Option Char :=
          if e = '"' then some '"'
          else if e = '\\' then some '\\'
          else if e = '/' then some '/'
          else if e = 'n' then some '\n'
          else if e = 't' then some '\t'
          else if e = 'r' then some '\r'
          else if e = 'b' then some (Char.ofNat 8)
          else if e = 'f' then some (Char.ofNat 12)
          else none
        match esc with
        | none => none
        | some ec =>
          match parseStringBody rest2 with
          | none => none
          | some (s, rem) => some (String.mk (ec :: s.data), rem)
    else
      match parseStringBody rest with
      | none => none
      | some (s, rem) => some (String.mk (c :: s.data), rem)

/-- Parse a non-empty run of decimal digits into a natural number,
returning the remainder. -/
def parseDigits (cs : List Char) : Option (Nat × List Char) :=
  let ds := cs.takeWhile Char.isDigit
  if ds.isEmpty then none
  else some (ds.foldl (fun n c => 10 * n + (c.toNat - 48)) 0, cs.dropWhile Char.isDigit)

mutual

/-- Parse one JSON value (with leading whitespace), fuel-bounded.  Models
the grammar `json.loads` accepts, restricted to integer numerals (no
fractions or exponents, which never occur in the modelled inputs). -/
def parseValue : Nat → List Char → Option (Json × List Char)
  | 0, _ => none
  | Nat.succ fuel, cs =>
    match skipWs cs with
    | [] => none
    | c :: rest =>
      if c = Char.ofNat 123 then
        match skipWs rest with
        | Char.ofNat 125 :: rem => some (Json.obj [], rem)
        | rest2 =>
          match parseMembers fuel rest2 with
          | none => none
          | some (kvs, rem) => some (Json.obj kvs, rem)
      else if c = '[' then
        match skipWs rest with
        | ']' :: rem => some (Json.arr [], rem)
        | rest2 =>
          match parseElements fuel rest2 with
          | none => none
          | some (xs, rem) => some (Json.arr xs, rem)
      else if c = '"' then
        match parseStringBody rest with
        | none => none
        | some (s, rem) => some (Json.str s, rem)
      else if c = '-' then
        match parseDigits rest with
        | none => none
        | some (n, rem) => some (Json.num (-(n : Int)), rem)
      else if c.isDigit then
        match parseDigits (c :: rest) with
        | none => none
        | some (n, rem) => some (Json.num (n : Int), rem)
      else
        match c :: rest with
        | 't' :: 'r' :: 'u' :: 'e' :: rem => some (Json.bool true, rem)
        | 'f' :: 'a' :: 'l' :: 's' :: 'e' :: rem => some (Json.bool false, rem)
        | 'n' :: 'u' :: 'l' :: 'l' :: rem => some (Json.null, rem)
        | _ => none

/-- Parse the members of a JSON object after its opening brace (a non-empty
`"key": value` list), through the closing brace. -/
def parseMembers : Nat → List Char → Option (List (String × Json) × List Char)
  | 0, _ => none
  | Nat.succ fuel, cs =>
    match skipWs cs with
    | '"' :: rest =>
      match parseStringBody rest with
      | none => none
      | some (k, rem) =>
        match skipWs rem with
        | ':' :: rem2 =>
          match parseValue fuel rem2 with
          | none => none
          | some (v, rem3) =>
            match skipWs rem3 with
            | ',' :: rem4 =>
              match parseMembers fuel rem4 with
              | none => none
              | some (kvs, rem5) => some ((k, v) :: kvs, rem5)
            | c :: rem4 =>
                if c = Char.ofNat 125 then some ([(k, v)], rem4) else none
            | [] => none
        | _ => none
    | _ => none

/-- Parse the elements of a JSON array after its opening bracket (a
non-empty value list), through the closing bracket. -/
def parseElements : Nat → List Char → Option (List Json × List Char)
  | 0, _ => none
  | Nat.succ fuel, cs =>
    match parseValue fuel cs with
    | none => none
    | some (x, rem) =>
      match skipWs rem with
      | ',' :: rem2 =>
        match parseElements fuel rem2 with
        | none => none
        | some (xs, rem3) => some (x :: xs, rem3)
      | ']' :: rem2 => some ([x], rem2)
      | _ => none

end

/-- `json.loads(content)`: parse one JSON document with nothing but
whitespace after it; `none` models a raised `JSONDecodeError`. -/
def jsonLoads (content : String) : Option Json :=
  match parseValue (content.data.length + 1) content.data with
  | none => none
  | some (v, rem) =>
    match skipWs rem with
    | [] => some v
    | _ => none

/-- One attempted match of the regex `POST\s*\d+[:\-]` at the head of the
input: the literal `POST`, any run of whitespace, at least one digit, then
`:` or `-`.  Returns the remainder after the match.  (The character classes
`\s` and `\d` are disjoint and the tail is a single mandatory character, so
greedy matching needs no backtracking.) -/
def matchPost (cs : List Char) : Option (List Char) :=
  match cs with
  | 'P' :: 'O' :: 'S' :: 'T' :: rest =>
    let afterWs := rest.dropWhile isPySpace
    if (afterWs.takeWhile Char.isDigit).isEmpty then none
    else
      match afterWs.dropWhile Char.isDigit with
      | ':' :: rem => some rem
      | '-' :: rem => some rem
      | _ => none
  | _ => none

/-- Left-to-right scan of `re.split(r"POST\s*\d+[:\-]", content)`: cut the
input at every non-overlapping leftmost match. -/
def splitPost : Nat → List Char → List Char → List String
  | 0, acc, _ => [String.mk acc.reverse]
  | Nat.succ fuel, acc, cs =>
    match cs with
    | [] => [String.mk acc.reverse]
    | c :: rest =>
      match matchPost cs with
      | some rem => String.mk acc.reverse :: splitPost fuel [] rem
      | none => splitPost fuel (c :: acc) rest

/-- `re.split(r"POST\s*\d+[:\-]", content)` (`src/main.py` line 155). -/
def reSplitPost (content : String) : List String :=
  splitPost (content.data.length + 1) [] content.data

/-- The fallback branch of `generate_posts` (`src/main.py` lines 155-156):
`[p.strip() for p in re.split(...) if p.strip()]`. -/
def fallbackPosts (content : String) : List String :=
  (reSplitPost content).filterMap
    (fun p => if pyStrip p = "" then none else some (pyStrip p))

/-- The `try` branch of `generate_posts` (`src/main.py` lines 150-152):
`json.loads(content)` then `data.get("posts", [])`; any exception in it is
caught by the bare `except`. -/
def generate_posts_attempt (content : String) : Except PyErr Json :=
  match jsonLoads content with
  | none => Except.error PyErr.jsonDecodeError
  | some data => pyDictGetD data "posts" (Json.arr [])

/-- `generate_posts` (`src/main.py` lines 149-156), parameterised by the
model-output string: the `try` branch's value when it raises nothing,
otherwise the regex-split fallback (as a list of strings). -/
def generate_posts (content : String) : Json :=
  match generate_posts_attempt content with
  | Except.ok v => v
  | Except.error _ => Json.arr ((fallbackPosts content).map Json.str)

/-- Python `s.split("\n")`: split at every newline, keeping empty pieces. -/
def splitNlChars : List Char → List Char → List String
  | acc, [] => [String.mk acc.reverse]
  | acc, c :: rest =>
      if c = '\n' then String.mk acc.reverse :: splitNlChars [] rest
      else splitNlChars (c :: acc) rest

/-- `topic_input.split("\n")`. -/
def pySplitNl (s : String) : List String := splitNlChars [] s.data

/-- The orchestrator's topic list (`src/main.py` line 186):
`[t.strip() for t in topic_input.split("\n") if t.strip()]`. -/
def topics_of (topic_input : String) : List String :=
  (pySplitNl topic_input).filterMap
    (fun t => if pyStrip t = "" then none else some (pyStrip t))

/-- One output row of the editorial plan (`src/main.py` lines 206-212).
Fields mirror the dict keys `"Data pubblicazione"`, `"Argomento"`,
`"Fonte"`, `"Contenuto post"`, `"Immagine"`. -/
structure PlanRow where
  dataPubblicazione : String
  argomento : String
  fonte : String
  contenutoPost : String
  immagine : String
deriving DecidableEq, Repr

/-- The orchestrator's row loop (`src/main.py` lines 205-212): for each
generated post `p`, append one row with an empty publish date, the current
topic, the comma-joined source URLs, `p.strip()`, and an empty image. -/
def buildRows (topic : String) (sources_urls : List String) :
    List Json → Except PyErr (List PlanRow)
  | [] => Except.ok []
  | p :: ps =>
    match pyStripVal p with
    | Except.error e => Except.error e
    | Except.ok c =>
      match buildRows topic sources_urls ps with
      | Except.error e => Except.error e
      | Except.ok rows =>
          Except.ok (⟨"", topic, String.intercalate ", " sources_urls, c, ""⟩ :: rows)

theorem jlookup_nil (k : String) : jlookup [] k = none := rfl

theorem jlookup_isEmpty_false {kvs : List (String × Json)} {k : String}
    {v : Json} (h : jlookup kvs k = some v) : kvs.isEmpty = false := by
  cases kvs with
  | nil => simp [jlookup] at h
  | cons a l => rfl

theorem optEq20000_true {v : Option Json} (h : optEq20000 v = true) :
    v = some (Json.num 20000) := by
  match v with
  | none => simp [optEq20000] at h
  | some (Json.num n) =>
      simp only [optEq20000, beq_iff_eq] at h
      subst h
      rfl
  | some Json.null | some (Json.bool _) | some (Json.str _)
  | some (Json.arr _) | some (Json.obj _) => simp [optEq20000] at h

theorem optEq20000_false {v : Option Json} (h : v ≠ some (Json.num 20000)) :
    optEq20000 v = false := by
  cases hv : optEq20000 v with
  | false => rfl
  | true => exact absurd (optEq20000_true hv) h

theorem jeqStr_true {j : Json} {s : String} (h : jeqStr j s = true) :
    j = Json.str s := by
  cases j <;> simp_all [jeqStr]

theorem filterOrganic_mem :
    ∀ (xs l : List Json), filterOrganic xs = Except.ok l →
      ∀ r ∈ l, pySubscriptStr r "type" = Except.ok (Json.str "organic") := by
  intro xs
  induction xs with
  | nil =>
      intro l h r hr
      injection h with h
      subst h
      simp at hr
  | cons x xs ih =>
      intro l h r hr
      unfold filterOrganic at h
      split at h
      · exact (Except.noConfusion h)
      · rename_i t ht
        split at h
        · exact (Except.noConfusion h)
        · rename_i rest hrest
          injection h with h
          subst h
          by_cases hor : jeqStr t "organic" = true
          · rw [if_pos hor] at hr
            rcases List.mem_cons.mp hr with hrx | hrr
            · subst hrx
              rw [ht, jeqStr_true hor]
            · exact ih rest hrest r hrr
          · rw [if_neg hor] at hr
            exact ih rest hrest r hr

/-- Claim C1: for every search-API response with an HTTP status other than
200, or a JSON-object body whose `status_code` is not the integer 20000,
`cached_serp` returns the empty list and raises no exception. -/
theorem cached_serp_failure_empty (resp : HttpResponse) (depth : Nat)
    (h : resp.status ≠ 200 ∨
         ∃ kvs, resp.jsonBody = some (Json.obj kvs) ∧
           jlookup kvs "status_code" ≠ some (Json.num 20000)) :
    cached_serp resp depth = Except.ok [] := by
  unfold cached_serp
  rcases h with hs | ⟨kvs, hbody, hsc⟩
  · rw [if_neg hs]
  · by_cases hst : resp.status = 200
    · rw [if_pos hst, hbody]
      simp [pyDictGet, optEq20000_false hsc]
    · rw [if_neg hst]

/-- Concrete check of `cached_serp_failure_empty`: an HTTP 404 and an API
status 40000 both yield the empty list. -/
theorem cached_serp_failure_empty_check :
    cached_serp ⟨404, none⟩ 5 = Except.ok [] ∧
    cached_serp ⟨200, some (Json.obj [("status_code", Json.num 40000)])⟩ 7 =
      Except.ok [] :=
  ⟨cached_serp_failure_empty _ _ (Or.inl (by decide)),
   cached_serp_failure_empty _ _
     (Or.inr ⟨[("status_code", Json.num 40000)], rfl, by simp [jlookup]⟩)⟩

/-- Claim C6: whenever `get_serp_results` (i.e. `cached_serp` at depth 5)
returns normally, it returns at most 5 items and every returned item's
`"type"` field is the string `"organic"` (the non-organic items having been
filtered out before the truncation to 5). -/
theorem get_serp_results_bounded_organic (resp : HttpResponse) (l : List Json)
    (h : get_serp_results resp = Except.ok l) :
    l.length ≤ 5 ∧
    ∀ r ∈ l, pySubscriptStr r "type" = Except.ok (Json.str "organic") := by
  unfold get_serp_results cached_serp at h
  repeat' split at h
  any_goals exact (Except.noConfusion h)
  all_goals injection h with h
  all_goals subst h
  any_goals exact ⟨Nat.zero_le _, fun r hr => absurd hr (List.not_mem_nil r)⟩
  rename_i organic heq
  refine ⟨List.length_take_le _ _, fun r hr => ?_⟩
  exact filterOrganic_mem _ _ heq r (List.take_subset _ _ hr)

/-- Concrete check of `get_serp_results_bounded_organic`: a response with
six organic items and one paid item yields five organic items. -/
theorem get_serp_results_bounded_organic_check :
    (List.take 5 ((List.range 6).map
        (fun i => Json.obj [("type", Json.str "organic"), ("pos", Json.num i)]))).length ≤ 5 ∧
    ∀ r ∈ List.take 5 ((List.range 6).map
        (fun i => Json.obj [("type", Json.str "organic"), ("pos", Json.num i)])),
      pySubscriptStr r "type" = Except.ok (Json.str "organic") :=
  get_serp_results_bounded_organic
    ⟨200, some (Json.obj [("status_code", Json.num 20000),
      ("tasks", Json.arr [Json.obj [("result", Json.arr [Json.obj
        [("items", Json.arr
          (Json.obj [("type", Json.str "paid")] ::
            (List.range 6).map
              (fun i => Json.obj [("type", Json.str "organic"),
                                  ("pos", Json.num i)])))]])]])])⟩
    _ (by rfl)

/-- The search-API response of claim C9: HTTP 200, API status 20000, but an
empty `"tasks"` list. -/
def serpBodyEmptyTasks : Json :=
  Json.obj [("status_code", Json.num 20000), ("tasks", Json.arr [])]

/-- Claim C9: there is a search-API response with HTTP status 200 and body
`status_code` 20000, but with empty nested fields, on which `cached_serp`
raises (an `IndexError` from the unguarded
`data["tasks"][0]["result"][0]["items"]`) instead of returning `[]`. -/
theorem cached_serp_unguarded_index_raises :
    (HttpResponse.mk 200 (some serpBodyEmptyTasks)).status = 200 ∧
    pyDictGet serpBodyEmptyTasks "status_code" =
      Except.ok (some (Json.num 20000)) ∧
    get_serp_results ⟨200, some serpBodyEmptyTasks⟩ =
      Except.error PyErr.indexError :=
  ⟨rfl, rfl, rfl⟩

/-- Claim C5: whenever `extract_text` returns a string, that string has at
most 4000 characters. -/
theorem extract_text_le_4000 (data : Option Json) (s : String)
    (h : extract_text data = Except.ok s) : s.length ≤ 4000 := by
  unfold extract_text at h
  repeat' split at h
  any_goals exact (Except.noConfusion h)
  all_goals injection h with h
  all_goals subst h
  any_goals decide
  rename_i text heq
  show (List.take 4000 text).length ≤ 4000
  exact List.length_take_le _ _

/-- Concrete check of `extract_text_le_4000` on a response holding two text
fragments. -/
theorem extract_text_le_4000_check : ("hello world " : String).length ≤ 4000 :=
  extract_text_le_4000
    (some (Json.obj [("status_code", Json.num 20000),
      ("result", Json.arr [Json.obj [("items", Json.arr [Json.obj
        [("page_content", Json.obj [("main_topic", Json.arr [Json.obj
          [("primary_content", Json.arr
            [Json.obj [("text", Json.str "hello")],
             Json.obj [("text", Json.str "world")]])]])])]])]])]))
    _ (by rfl)

/-- Claim C2: `extract_text` returns the empty string (raising nothing)
whenever the content-API value is absent (`None`), is an object whose
`status_code` is not 20000, or lacks the expected nested fields: empty or
missing `"result"` list, first result without `"items"`, empty `"items"`
list, or first item without `"page_content"`. -/
theorem extract_text_failure_empty (data : Option Json)
    (h : data = none
      ∨ (∃ kvs, data = some (Json.obj kvs) ∧
           jlookup kvs "status_code" ≠ some (Json.num 20000))
      ∨ (∃ kvs, data = some (Json.obj kvs) ∧
           jlookup kvs "status_code" = some (Json.num 20000) ∧
           ((jlookup kvs "result").getD (Json.arr []) = Json.arr []
            ∨ (∃ kvs2 rs,
                 (jlookup kvs "result").getD (Json.arr []) =
                   Json.arr (Json.obj kvs2 :: rs) ∧
                 (jlookup kvs2 "items" = none
                  ∨ jlookup kvs2 "items" = some (Json.arr [])
                  ∨ (∃ kvs3 is, jlookup kvs2 "items" =
                       some (Json.arr (Json.obj kvs3 :: is)) ∧
                       jlookup kvs3 "page_content" = none)))))) :
    extract_text data = Except.ok "" := by
  rcases h with hn | ⟨kvs, hd, hsc⟩ | ⟨kvs, hd, hsc, hrest⟩
  · subst hn; rfl
  · subst hd
    unfold extract_text
    by_cases he : kvs.isEmpty
    · simp [pyTruthy, he]
    · simp [pyTruthy, he, pyDictGet, optEq20000_false hsc]
  · subst hd
    unfold extract_text
    have he : kvs.isEmpty = false := jlookup_isEmpty_false hsc
    rcases hrest with hres | ⟨kvs2, rs, hres, hitems⟩
    · simp [pyTruthy, he, pyDictGet, hsc, optEq20000, pyDictGetD, hres]
    · rcases hitems with hit | hit | ⟨kvs3, is, hit, hpage⟩
      · simp [pyTruthy, he, pyDictGet, hsc, optEq20000, pyDictGetD, hres,
              pySubscriptNat, pyContains, hit]
      · simp [pyTruthy, he, pyDictGet, hsc, optEq20000, pyDictGetD, hres,
              pySubscriptNat, pyContains, pySubscriptStr, hit]
      · simp [pyTruthy, he, pyDictGet, hsc, optEq20000, pyDictGetD, hres,
              pySubscriptNat, pyContains, pySubscriptStr, hit, hpage]

/-- Concrete check of `extract_text_failure_empty`: an absent response and
a response whose first item lacks `"page_content"` both yield `""`. -/
theorem extract_text_failure_empty_check :
    extract_text none = Except.ok "" ∧
    extract_text (some (Json.obj [("status_code", Json.num 20000),
      ("result", Json.arr [Json.obj [("items", Json.arr
        [Json.obj [("other", Json.str "x")]])]])])) = Except.ok "" :=
  ⟨extract_text_failure_empty none (Or.inl rfl),
   extract_text_failure_empty _
     (Or.inr (Or.inr ⟨_, rfl, rfl,
       Or.inr ⟨[("items", Json.arr [Json.obj [("other", Json.str "x")]])], [], rfl,
         Or.inr (Or.inr ⟨[("other", Json.str "x")], [], rfl, rfl⟩)⟩⟩))⟩

/-- Claim C3: on model output that fails strict JSON parsing,
`generate_posts` falls back to splitting on the case-sensitive pattern
`POST <digits>:` / `POST <digits>-` and returns the stripped non-empty
fragments; on `"POST 1: Hello POST 2: World"` it returns exactly
`["Hello", "World"]`. -/
theorem generate_posts_fallback_split :
    jsonLoads "POST 1: Hello POST 2: World" = none ∧
    generate_posts "POST 1: Hello POST 2: World" =
      Json.arr [Json.str "Hello", Json.str "World"] :=
  ⟨rfl, rfl⟩

/-- Claim C4: on the well-formed JSON object `{"posts": ["a","b"]}`,
`generate_posts` returns exactly the two-element posts array, unchanged and
in order. -/
theorem generate_posts_wellformed_json :
    generate_posts "\x7b\"posts\": [\"a\",\"b\"]\x7d" =
      Json.arr [Json.str "a", Json.str "b"] :=
  rfl

/-- Claim C10: when the model output parses as a JSON object with no
`"posts"` key, the `try` branch of `generate_posts` succeeds with the
default `[]` — so `generate_posts` returns the empty list and the regex
fallback is not invoked. -/
theorem generate_posts_missing_posts_key (content : String)
    (kvs : List (String × Json))
    (h1 : jsonLoads content = some (Json.obj kvs))
    (h2 : jlookup kvs "posts" = none) :
    generate_posts_attempt content = Except.ok (Json.arr []) ∧
    generate_posts content = Json.arr [] := by
  have ha : generate_posts_attempt content = Except.ok (Json.arr []) := by
    unfold generate_posts_attempt
    rw [h1]
    simp [pyDictGetD, h2]
  exact ⟨ha, by unfold generate_posts; rw [ha]⟩

/-- Concrete check of `generate_posts_missing_posts_key` on the object
`{"a": 1}`. -/
theorem generate_posts_missing_posts_key_check :
    generate_posts_attempt "\x7b\"a\": 1\x7d" = Except.ok (Json.arr []) ∧
    generate_posts "\x7b\"a\": 1\x7d" = Json.arr [] :=
  generate_posts_missing_posts_key "\x7b\"a\": 1\x7d" [("a", Json.num 1)] rfl rfl

/-- Claim C7: whenever the orchestrator's row loop completes, it appends
exactly one row per generated post, and every row has an empty publish-date
field, an empty image field, the processed topic in the topic field, and
the comma-joined source URLs in the source field. -/
theorem buildRows_row_shape (topic : String) (urls : List String) :
    ∀ (posts : List Json) (rows : List PlanRow),
      buildRows topic urls posts = Except.ok rows →
      rows.length = posts.length ∧
      ∀ row ∈ rows, row.dataPubblicazione = "" ∧ row.immagine = "" ∧
        row.argomento = topic ∧ row.fonte = String.intercalate ", " urls := by
  intro posts
  induction posts with
  | nil =>
      intro rows h
      injection h with h
      subst h
      exact ⟨rfl, fun row hrow => absurd hrow (List.not_mem_nil row)⟩
  | cons p ps ih =>
      intro rows h
      unfold buildRows at h
      split at h
      · exact (Except.noConfusion h)
      · rename_i c hc
        split at h
        · exact (Except.noConfusion h)
        · rename_i rest hrest
          injection h with h
          subst h
          obtain ⟨hlen, hall⟩ := ih rest hrest
          refine ⟨by simp [hlen], fun row hrow => ?_⟩
          rcases List.mem_cons.mp hrow with hr0 | hrr
          · subst hr0
            exact ⟨rfl, rfl, rfl, rfl⟩
          · exact hall row hrr

/-- Concrete check of `buildRows_row_shape` on two posts and two source
URLs. -/
theorem buildRows_row_shape_check :
    ([(⟨"", "caffè", "https://a.example, https://b.example", "post uno", ""⟩ : PlanRow),
      ⟨"", "caffè", "https://a.example, https://b.example", "post due", ""⟩] : List PlanRow).length =
      ([Json.str " post uno ", Json.str "post due"] : List Json).length ∧
    ∀ row ∈ ([(⟨"", "caffè", "https://a.example, https://b.example", "post uno", ""⟩ : PlanRow),
      ⟨"", "caffè", "https://a.example, https://b.example", "post due", ""⟩] : List PlanRow),
      row.dataPubblicazione = "" ∧ row.immagine = "" ∧
        row.argomento = "caffè" ∧
        row.fonte = String.intercalate ", " ["https://a.example", "https://b.example"] :=
  buildRows_row_shape "caffè" ["https://a.example", "https://b.example"]
    [Json.str " post uno ", Json.str "post due"] _ (by rfl)

theorem dropWhile_head_false {p : Char → Bool} :
    ∀ (l : List Char) (c : Char) (rest : List Char),
      l.dropWhile p = c :: rest → p c = false := by
  intro l
  induction l with
  | nil => intro c rest h; simp [List.dropWhile] at h
  | cons a l ih =>
      intro c rest h
      rw [List.dropWhile_cons] at h
      by_cases hp : p a = true
      · rw [if_pos hp] at h
        exact ih c rest h
      · rw [if_neg hp] at h
        injection h with h1 _
        subst h1
        exact Bool.eq_false_iff.mpr hp

theorem pyStrip_any_nonspace {u : String} (h : pyStrip u ≠ "") :
    (pyStrip u).data.any (fun c => !isPySpace c) = true := by
  have hne : trimChars u.data ≠ [] := by
    intro hz
    exact h (by simp [pyStrip, hz])
  show (trimChars u.data).any (fun c => !isPySpace c) = true
  unfold trimChars at hne ⊢
  cases hd : ((u.data.dropWhile isPySpace).reverse.dropWhile isPySpace) with
  | nil => exact absurd (by rw [hd]; rfl) hne
  | cons c rest =>
      have hc : isPySpace c = false := dropWhile_head_false _ c rest hd
      refine List.any_eq_true.mpr ⟨c, ?_, by simp [hc]⟩
      exact List.mem_reverse.mpr (List.mem_cons_self c rest)

/-- Claim C8: every topic processed by the orchestrator is non-blank and
not whitespace-only — the input is split on newlines, each line stripped,
and empty results dropped. -/
theorem topics_of_no_blank (input : String) (t : String)
    (h : t ∈ topics_of input) :
    t ≠ "" ∧ t.data.any (fun c => !isPySpace c) = true := by
  unfold topics_of at h
  rw [List.mem_filterMap] at h
  obtain ⟨u, _, hu⟩ := h
  by_cases hz : pyStrip u = ""
  · rw [if_pos hz] at hu
    exact (Option.noConfusion hu)
  · rw [if_neg hz] at hu
    injection hu with hu
    subst hu
    exact ⟨hz, pyStrip_any_nonspace hz⟩

/-- Concrete check of `topics_of_no_blank`: the surviving entry of an input
with blank and whitespace-only lines. -/
theorem topics_of_no_blank_check :
    ("caffè artigianale" : String) ≠ "" ∧
    ("caffè artigianale" : String).data.any (fun c => !isPySpace c) = true :=
  topics_of_no_blank "  \n caffè artigianale \n\n \t " "caffè artigianale"
    (by rw [show topics_of "  \n caffè artigianale \n\n \t " = ["caffè artigianale"] from rfl]
        exact List.mem_singleton.mpr rfl)
